import Mathlib

/-
Verification development for the OandaPYSuite candle-data model
(oandapysuite/implementation.py). The core under study is the
CandleCluster class: payload parsing, the bull/bear/reversal derivation
pass, rolling standard deviation, concatenation, history extraction and
iteration. Decimal prices are modelled as rationals (the process-wide
6-digit precision context only affects rounding of arithmetic, which no
verified property depends on); timestamps are modelled as integers on a
single timeline (strptime is order-preserving on normalized inputs);
the JSON payload is modelled post-parse as a structure.
-/

set_option autoImplicit false

namespace Oanda

deriving instance DecidableEq for Except

/-- Error taxonomy of the failures the embedded operations can raise.
clusterConcat carries both instrument strings, as the source passes both
to the ClusterConcatException constructor. unknownAttribute models the
attribute-lookup failure raised by getattr on an unrecognized field name
(the spec taxonomy names it UnknownAttributeError; the exceptions module
itself is not part of the sources). typeError models getattr called with
a non-string name; indexError models indexing an empty candle list;
emptyInput models the statistics helper rejecting an empty sequence. -/
inductive OandaError where
  | clusterConcat (a b : String)
  | unknownAttribute
  | typeError
  | indexError
  | emptyInput
  deriving DecidableEq

/-- One OHLC price bar with its derived fields, mirroring
CandleCluster.Candle. The field open_ stands for the source attribute
named open (a Lean keyword). The three derived flags is_bull, is_bear,
reversal start as None (here: none) and are set once by the owning
cluster's derivation pass for every candle except the first. -/
structure Candle where
  open_ : ℚ
  close : ℚ
  low : ℚ
  high : ℚ
  oc_displacement : ℚ
  total_displacement : ℚ
  complete : Bool
  time : ℤ
  volume : ℤ
  gran : String
  instrument : String
  reversal : Option Bool
  is_bull : Option Bool
  is_bear : Option Bool
  deriving DecidableEq

/-- One raw candle record of the payload, post JSON parse: the mid prices
(values of the decimal strings), the complete flag still as a string, the
timestamp already on the integer timeline, and the volume. -/
structure RawCandle where
  mid_o : ℚ
  mid_c : ℚ
  mid_l : ℚ
  mid_h : ℚ
  complete : String
  time : ℤ
  volume : ℤ
  deriving DecidableEq

/-- A valid API payload, post JSON parse: granularity, instrument and the
ordered candle array. -/
structure Payload where
  granularity : String
  instrument : String
  candles : List RawCandle
  deriving DecidableEq

/-- Python str.replace applied to the single characters of the
instrument: every slash becomes an underscore. -/
def replaceSlash (s : String) : String :=
  ⟨s.data.map (fun ch => if ch = '/' then '_' else ch)⟩

/-- Candle.__init__: prices are taken from the mid block,
oc_displacement := close - open, total_displacement := high - low, the
complete flag is true exactly when the raw string equals "true" (strict
equality, any other string is false), and the three derived flags start
unset (None). -/
def mkCandle (candledata : RawCandle) (ins gran : String) : Candle :=
  { open_ := candledata.mid_o
    close := candledata.mid_c
    low := candledata.mid_l
    high := candledata.mid_h
    oc_displacement := candledata.mid_c - candledata.mid_o
    total_displacement := candledata.mid_h - candledata.mid_l
    complete := decide (candledata.complete = "true")
    time := candledata.time
    volume := candledata.volume
    gran := gran
    instrument := ins
    reversal := none
    is_bull := none
    is_bear := none }

/-- One step shape of the derivation loop of CandleCluster.__init__ for
indices i >= 1: prev is the (already updated) candle at i-1; each candle
gets is_bull := close > prev.close (strict), is_bear := its negation, and
reversal := False when its fresh is_bull equals prev.is_bull, True
otherwise (a Python comparison of a bool against None is false, which the
Option Bool equality reproduces). -/
def derivePass (prev : Candle) : List Candle → List Candle
  | [] => []
  | c :: cs =>
    let b := decide (c.close > prev.close)
    let c2 := { c with is_bull := some b
                       is_bear := some (!b)
                       reversal := some (decide (some b ≠ prev.is_bull)) }
    c2 :: derivePass c2 cs

/-- The full derivation pass: index 0 is skipped (the loop continues on
i == 0), every later candle is updated by derivePass. -/
def derive : List Candle → List Candle
  | [] => []
  | c :: cs => c :: derivePass c cs

/-- An ordered sequence of candles for one instrument and granularity,
mirroring CandleCluster: granularity tag, instrument with slashes
normalized to underscores, candle list after the derivation pass, and the
mutable cursor ind initialized to 0 (used only by the manual __next__
protocol). -/
structure CandleCluster where
  gran : String
  instrument : String
  candles : List Candle
  ind : ℕ
  deriving DecidableEq

/-- CandleCluster.__init__ on a valid payload: normalize the instrument,
build one Candle per raw record in payload order, run the derivation
pass, then compute the rolling standard deviation. Modelled from the
spec: the statistics helper standard_deviation (module oandapysuite.stats,
not among the sources) fails with an EmptyInputError on an empty
sequence; the constructor therefore propagates that failure, which
happens exactly when the candle list is empty (the last-30 slice of the
candle list is empty iff the list is). The deviation value itself is not
stored here but recovered by CandleCluster.std below, which is sound
because the cluster is immutable after construction. -/
def CandleCluster.init (candsjson : Payload) : Except OandaError CandleCluster :=
  let ins := replaceSlash candsjson.instrument
  let cs := candsjson.candles.map (fun c => mkCandle c ins candsjson.granularity)
  let ds := derive cs
  if ds.isEmpty then .error .emptyInput
  else .ok { gran := candsjson.granularity, instrument := ins, candles := ds, ind := 0 }

/-- Modelled from the spec: the statistics helper of
oandapysuite.stats (not among the sources) computes the population
standard deviation of a numeric sequence and fails with an
EmptyInputError on an empty one. -/
noncomputable def standard_deviation (l : List ℚ) : Except OandaError ℝ :=
  if l.isEmpty then .error .emptyInput
  else .ok (Real.sqrt ((l.map (fun x => ((x : ℝ) - ((l.sum / l.length : ℚ) : ℝ)) ^ 2)).sum / l.length))

/-- The std attribute computed on the last line of CandleCluster.__init__:
the standard deviation of the close values of the candle slice
candles[-30:], i.e. of the candles after dropping all but the last 30
(Python clamps the negative start index at 0, List.drop with truncated
subtraction does the same). Exposed as a function of the cluster since
the cluster never changes after construction. -/
noncomputable def CandleCluster.std (c : CandleCluster) : Except OandaError ℝ :=
  standard_deviation ((c.candles.drop (c.candles.length - 30)).map Candle.close)

/-- CandleCluster.__add__. The source first checks the instruments and
raises ClusterConcatException with both instrument strings on a
mismatch; indexing self[0], b[-1], b[0], self[-1] fails on an empty
operand. When one operand strictly precedes the other it deepcopies the
earlier side and appends the later side's candles to the copy — but the
method ends with a bare return statement, so the assembled result is
discarded and None is returned on every non-raising path (also on the
fall-through when neither ordering condition holds). -/
def CandleCluster.add (a b : CandleCluster) : Except OandaError (Option CandleCluster) :=
  if a.instrument ≠ b.instrument then
    .error (.clusterConcat a.instrument b.instrument)
  else
    match a.candles.head?, a.candles.getLast?, b.candles.head?, b.candles.getLast? with
    | some a0, some aLast, some b0, some bLast =>
      if a0.time > bLast.time then
        let _result := { b with candles := b.candles ++ a.candles }
        .ok none
      else if b0.time > aLast.time then
        let _result := { a with candles := a.candles ++ b.candles }
        .ok none
      else
        .ok none
    | _, _, _, _ => .error .indexError

/-- A list iterator as returned by iter(self.candles): the candles not
yet produced. CandleCluster.__iter__ builds a fresh one per call; the
shared cursor ind of the separate __next__ protocol is not involved. -/
structure CandleIter where
  rest : List Candle
  deriving DecidableEq

/-- CandleCluster.__iter__: a fresh iterator over the candle list. -/
def CandleCluster.iter (c : CandleCluster) : CandleIter := ⟨c.candles⟩

/-- Consuming a list fully, one element per step, as a for loop does. -/
def exhaustFrom : List Candle → List Candle
  | [] => []
  | c :: cs => c :: exhaustFrom cs

/-- Running an iterator to exhaustion. -/
def CandleIter.exhaust (it : CandleIter) : List Candle := exhaustFrom it.rest

/-- Two complete traversals of the same cluster, each through a fresh
iterator from __iter__ (the cluster itself is not mutated by either). -/
def traverseTwice (c : CandleCluster) : List Candle × List Candle :=
  (c.iter.exhaust, c.iter.exhaust)

/-- A Python attribute value of a Candle object. -/
inductive PyValue where
  | rat (q : ℚ)
  | int (i : ℤ)
  | boolean (b : Bool)
  | str (s : String)
  | optBool (b : Option Bool)
  deriving DecidableEq

/-- The attribute dictionary of a Candle object: every name set by
Candle.__init__, with its accessor. -/
def candleAttrs : List (String × (Candle → PyValue)) :=
  [ ("open", fun c => .rat c.open_)
  , ("close", fun c => .rat c.close)
  , ("low", fun c => .rat c.low)
  , ("high", fun c => .rat c.high)
  , ("oc_displacement", fun c => .rat c.oc_displacement)
  , ("total_displacement", fun c => .rat c.total_displacement)
  , ("complete", fun c => .boolean c.complete)
  , ("time", fun c => .int c.time)
  , ("volume", fun c => .int c.volume)
  , ("gran", fun c => .str c.gran)
  , ("instrument", fun c => .str c.instrument)
  , ("reversal", fun c => .optBool c.reversal)
  , ("is_bull", fun c => .optBool c.is_bull)
  , ("is_bear", fun c => .optBool c.is_bear) ]

/-- Python getattr on a Candle: the value of the named attribute, none
when the name is not an attribute (an AttributeError in Python). -/
def Candle.getattr (c : Candle) (s : String) : Option PyValue :=
  (candleAttrs.find? (fun p => p.fst == s)).map (fun p => p.snd c)

/-- Whether a string names a Candle attribute. -/
def isCandleAttr (s : String) : Bool :=
  (candleAttrs.find? (fun p => p.fst == s)).isSome

/-- Attribute lookup as history performs it: getattr called with None
raises a TypeError, with an unrecognized name an attribute-lookup error
(UnknownAttributeError in the spec taxonomy), otherwise it yields the
value. -/
def getattrE (c : Candle) (v : Option String) : Except OandaError PyValue :=
  match v with
  | none => .error .typeError
  | some s =>
    match c.getattr s with
    | some x => .ok x
    | none => .error .unknownAttribute

/-- Python truthiness of an optional string argument: None and the empty
string are falsy, every other string is truthy. -/
def pyTruthy (v : Option String) : Bool :=
  match v with
  | none => false
  | some s => !s.isEmpty

/-- The loop of the two-field branch of history: per candle, look up
valuex then valuey, collecting two parallel lists; the first failing
lookup aborts the call. -/
def histPairs (cs : List Candle) (vx vy : Option String) :
    Except OandaError (List PyValue × List PyValue) :=
  match cs with
  | [] => .ok ([], [])
  | c :: rest => do
    let x ← getattrE c vx
    let y ← getattrE c vy
    let (xs, ys) ← histPairs rest vx vy
    return (x :: xs, y :: ys)

/-- The list comprehension of the one-field branch of history. -/
def histSingle (cs : List Candle) (vx : Option String) :
    Except OandaError (List PyValue) :=
  match cs with
  | [] => .ok []
  | c :: rest => do
    let x ← getattrE c vx
    let xs ← histSingle rest vx
    return (x :: xs)

/-- What a history call hands back when it returns: one sequence or a
pair of parallel sequences. -/
inductive HistResult where
  | single (xs : List PyValue)
  | pair (xs ys : List PyValue)
  deriving DecidableEq

/-- CandleCluster.history(valuex, valuey): when both arguments are truthy
it returns the pair of parallel attribute sequences; otherwise, when
valuey is falsy, it returns the single sequence for valuex; otherwise
(valuex falsy, valuey truthy) control falls off the end of the function
and Python returns None. -/
def CandleCluster.history (c : CandleCluster) (valuex valuey : Option String) :
    Except OandaError (Option HistResult) :=
  if pyTruthy valuex && pyTruthy valuey then
    match histPairs c.candles valuex valuey with
    | .error e => .error e
    | .ok (xs, ys) => .ok (some (.pair xs ys))
  else if !pyTruthy valuey then
    match histSingle c.candles valuex with
    | .error e => .error e
    | .ok xs => .ok (some (.single xs))
  else
    .ok none

/-- Forgetting the three derived flags of a candle, for comparing a
cluster's candles with the freshly parsed ones. -/
def stripDerived (c : Candle) : Candle :=
  { c with is_bull := none, is_bear := none, reversal := none }

/-- A raw candle record whose four prices all equal cl, at time t. -/
def mkRaw (t : ℤ) (cl : ℚ) : RawCandle :=
  { mid_o := cl, mid_c := cl, mid_l := cl, mid_h := cl
    complete := "true", time := t, volume := 1 }

/-- A small payload: USD/CAD candles at times 1, 2, 3 with closes 1, 2, 1. -/
def payloadA : Payload :=
  { granularity := "M1", instrument := "USD/CAD"
    candles := [mkRaw 1 1, mkRaw 2 2, mkRaw 3 1] }

/-- The cluster the constructor produces from payloadA. -/
def sampleA : CandleCluster :=
  { gran := "M1", instrument := "USD_CAD"
    candles := derive (payloadA.candles.map (fun r => mkCandle r "USD_CAD" "M1"))
    ind := 0 }

/-- A second USD/CAD payload strictly after payloadA: times 4, 5, 6. -/
def payloadB : Payload :=
  { granularity := "M1", instrument := "USD/CAD"
    candles := [mkRaw 4 1, mkRaw 5 1, mkRaw 6 2] }

/-- The cluster the constructor produces from payloadB. -/
def sampleB : CandleCluster :=
  { gran := "M1", instrument := "USD_CAD"
    candles := derive (payloadB.candles.map (fun r => mkCandle r "USD_CAD" "M1"))
    ind := 0 }

/-- A payload with two candles whose closes tie: both equal 1. -/
def tiePayload : Payload :=
  { granularity := "M1", instrument := "USD/CAD"
    candles := [mkRaw 1 1, mkRaw 2 1] }

/-- The cluster the constructor produces from tiePayload. -/
def tieCluster : CandleCluster :=
  { gran := "M1", instrument := "USD_CAD"
    candles := derive (tiePayload.candles.map (fun r => mkCandle r "USD_CAD" "M1"))
    ind := 0 }

/-- A cluster on a different instrument, for the mismatch witness. -/
def sampleEUR : CandleCluster :=
  { gran := "M1", instrument := "EUR_USD", candles := [], ind := 0 }

lemma derivePass_length (cs : List Candle) : ∀ prev : Candle,
    (derivePass prev cs).length = cs.length := by
  induction cs with
  | nil => intro prev; rfl
  | cons c rest ih => intro prev; simp [derivePass, ih]

lemma derive_length (cs : List Candle) : (derive cs).length = cs.length := by
  cases cs with
  | nil => rfl
  | cons c rest => simp [derive, derivePass_length]

lemma derivePass_strip (cs : List Candle) : ∀ prev : Candle,
    (derivePass prev cs).map stripDerived = cs.map stripDerived := by
  induction cs with
  | nil => intro prev; rfl
  | cons c rest ih => intro prev; simp [derivePass, ih, stripDerived]

lemma derive_strip (cs : List Candle) :
    (derive cs).map stripDerived = cs.map stripDerived := by
  cases cs with
  | nil => rfl
  | cons c rest => simp [derive, derivePass_strip]

lemma derive_head (cs : List Candle) : (derive cs).head? = cs.head? := by
  cases cs <;> rfl

/-- Inversion of a successful construction: the cluster's candles are the
derivation pass applied to the parsed payload candles, and are nonempty. -/
lemma init_ok_candles {p : Payload} {c : CandleCluster}
    (h : CandleCluster.init p = .ok c) :
    c.candles = derive (p.candles.map
      (fun r => mkCandle r (replaceSlash p.instrument) p.granularity)) ∧
    c.candles ≠ [] := by
  simp only [CandleCluster.init] at h
  split at h
  · exact absurd h (by simp)
  · rename_i hne
    injection h with h2
    subst h2
    refine ⟨rfl, ?_⟩
    intro hnil
    exact hne (by rw [List.isEmpty_iff]; exact hnil)

/-- The shape of every updated candle of the derivation pass, stated over
the list with the (already updated) predecessor in front: at every index
past the head, is_bull records the strict close comparison against the
predecessor, is_bear its negation, and reversal whether is_bull changed
relative to the predecessor (where the head keeps whatever flags it had). -/
lemma derivePass_get (cs : List Candle) : ∀ (prev : Candle) (i : ℕ),
    i < cs.length →
    ∀ (h1 : i + 1 < (prev :: derivePass prev cs).length)
      (h0 : i < (prev :: derivePass prev cs).length),
    (prev :: derivePass prev cs)[i+1].is_bull
        = some (decide ((prev :: derivePass prev cs)[i+1].close
            > (prev :: derivePass prev cs)[i].close)) ∧
    (prev :: derivePass prev cs)[i+1].is_bear
        = some (!decide ((prev :: derivePass prev cs)[i+1].close
            > (prev :: derivePass prev cs)[i].close)) ∧
    (prev :: derivePass prev cs)[i+1].reversal
        = some (decide ((prev :: derivePass prev cs)[i+1].is_bull
            ≠ (prev :: derivePass prev cs)[i].is_bull)) := by
  induction cs with
  | nil => intro prev i hi; simp at hi
  | cons c rest ih =>
    intro prev i hi h1 h0
    cases i with
    | zero =>
      simp [derivePass]
    | succ j =>
      have hj : j < rest.length := by simpa using hi
      simp only [derivePass, List.getElem_cons_succ]
      exact ih _ j hj (by simp [derivePass_length]; omega)
        (by simp [derivePass_length]; omega)

/-- Same statement for the full pass: at every index i + 1 of the derived
list, the three flags follow the comparison policy. -/
lemma derive_get (cs : List Candle) (i : ℕ)
    (h1 : i + 1 < (derive cs).length) (h0 : i < (derive cs).length) :
    (derive cs)[i+1].is_bull
        = some (decide ((derive cs)[i+1].close > (derive cs)[i].close)) ∧
    (derive cs)[i+1].is_bear
        = some (!decide ((derive cs)[i+1].close > (derive cs)[i].close)) ∧
    (derive cs)[i+1].reversal
        = some (decide ((derive cs)[i+1].is_bull ≠ (derive cs)[i].is_bull)) := by
  cases cs with
  | nil => simp [derive] at h1
  | cons c rest =>
    have hi : i < rest.length := by
      have := derive_length (c :: rest)
      simp at this
      omega
    exact derivePass_get rest c i hi
      (by simpa [derive] using h1) (by simpa [derive] using h0)

lemma getattr_eq_none (c : Candle) (s : String)
    (hs : isCandleAttr s = false) : c.getattr s = none := by
  unfold Candle.getattr
  unfold isCandleAttr at hs
  cases hfind : candleAttrs.find? (fun p => p.fst == s) with
  | none => rfl
  | some q => rw [hfind] at hs; simp at hs

lemma isCandleAttr_not_empty (s : String) (h : isCandleAttr s = true) :
    s.isEmpty = false := by
  cases he : s.isEmpty with
  | false => rfl
  | true =>
    rw [String.isEmpty_iff] at he
    subst he
    exact absurd h (by decide)

lemma pyTruthy_some (s : String) : pyTruthy (some s) = !s.isEmpty := rfl

lemma pyTruthy_none : pyTruthy none = false := rfl

lemma except_bind_ok {α β : Type} (a : α) (f : α → Except OandaError β) :
    (Except.ok a >>= f : Except OandaError β) = f a := rfl

lemma except_bind_error {α β : Type} (e : OandaError) (f : α → Except OandaError β) :
    (Except.error e >>= f : Except OandaError β) = Except.error e := rfl

lemma except_map_error {α β : Type} (e : OandaError) (f : α → β) :
    (f <$> (Except.error e : Except OandaError α)) = Except.error e := rfl

/-- C1: evaluation of the concatenation operator at the claimed inputs —
two constructible same-instrument clusters, the first entirely before
the second in time, combined in both operand orders. The source method
assembles the ordered union into a local variable but ends with a bare
return statement, so both calls return None instead of the combined
cluster the claim (and the rest of the method body) expects. -/
theorem add_discards_combined_result :
    CandleCluster.init payloadA = .ok sampleA ∧
    CandleCluster.init payloadB = .ok sampleB ∧
    sampleA.instrument = sampleB.instrument ∧
    sampleA.candles.map Candle.time = [1, 2, 3] ∧
    sampleB.candles.map Candle.time = [4, 5, 6] ∧
    CandleCluster.add sampleA sampleB = .ok none ∧
    CandleCluster.add sampleB sampleA = .ok none :=
  ⟨rfl, rfl, rfl, by decide, by decide, by decide, by decide⟩

/-- C2: for every constructed cluster and every index i + 1 past the
first candle, is_bull is exactly the strict comparison
close[i+1] > close[i] (so a tie classifies as bear), is_bear is its
negation, and reversal is exactly whether is_bull differs from the
previous candle's is_bull value. -/
theorem derived_flags_spec (p : Payload) (c : CandleCluster)
    (hp : CandleCluster.init p = .ok c) (i : ℕ)
    (h1 : i + 1 < c.candles.length) (h0 : i < c.candles.length) :
    c.candles[i+1].is_bull
        = some (decide (c.candles[i+1].close > c.candles[i].close)) ∧
    c.candles[i+1].is_bear
        = some (!decide (c.candles[i+1].close > c.candles[i].close)) ∧
    c.candles[i+1].reversal
        = some (decide (c.candles[i+1].is_bull ≠ c.candles[i].is_bull)) := by
  obtain ⟨g, ins, cs, ind⟩ := c
  obtain ⟨hc, -⟩ := init_ok_candles hp
  have hc2 : cs = _ := hc
  subst hc2
  exact derive_get _ i h1 h0

/-- Witness for derived_flags_spec at the tie payload with closes
[1, 1]: candle 1 classifies as bear (is_bull false), the regression case
of the strict-inequality policy. -/
theorem derived_flags_spec_witness :
    CandleCluster.init tiePayload = .ok tieCluster ∧
    tieCluster.candles.map Candle.close = [1, 1] ∧
    (tieCluster.candles.get ⟨1, by decide⟩).is_bull = some false ∧
    ((tieCluster.candles.get ⟨1, by decide⟩).is_bull
        = some (decide ((tieCluster.candles.get ⟨1, by decide⟩).close
            > (tieCluster.candles.get ⟨0, by decide⟩).close)) ∧
     (tieCluster.candles.get ⟨1, by decide⟩).is_bear
        = some (!decide ((tieCluster.candles.get ⟨1, by decide⟩).close
            > (tieCluster.candles.get ⟨0, by decide⟩).close)) ∧
     (tieCluster.candles.get ⟨1, by decide⟩).reversal
        = some (decide ((tieCluster.candles.get ⟨1, by decide⟩).is_bull
            ≠ (tieCluster.candles.get ⟨0, by decide⟩).is_bull))) :=
  ⟨rfl, by decide, by decide,
    derived_flags_spec tiePayload tieCluster rfl 0 (by decide) (by decide)⟩

/-- C3: concatenating two clusters whose instruments differ fails with
the concat exception carrying both instrument strings, for all clusters,
whatever their candle lists hold — the instrument check precedes every
access to the candles. -/
theorem add_instrument_mismatch_raises (a b : CandleCluster)
    (h : a.instrument ≠ b.instrument) :
    CandleCluster.add a b = .error (.clusterConcat a.instrument b.instrument) := by
  simp [CandleCluster.add, h]

/-- Witness for add_instrument_mismatch_raises on a USD_CAD and a
EUR_USD cluster (the latter even empty). -/
theorem add_instrument_mismatch_raises_witness :
    sampleA.instrument ≠ sampleEUR.instrument ∧
    CandleCluster.add sampleA sampleEUR
      = .error (.clusterConcat sampleA.instrument sampleEUR.instrument) :=
  ⟨by decide, add_instrument_mismatch_raises sampleA sampleEUR (by decide)⟩

/-- C4, counterexample to the claim as stated: the empty string is not a
recognized Candle attribute, yet a history call passing it as the first
field together with a recognized second field returns None without any
error — the empty string is falsy, so the call falls through both
branches and never reaches attribute lookup. -/
theorem history_unknown_name_no_error_cex :
    CandleCluster.init payloadA = .ok sampleA ∧
    isCandleAttr "" = false ∧
    sampleA.history (some "") (some "close") = .ok none :=
  ⟨rfl, by decide, by decide⟩

/-- C4, amended: for every constructed (hence non-empty) cluster and
every nonempty unrecognized field-name string, history fails with the
unknown-attribute error whenever the name is passed as the first field
(whatever the second argument), and also when passed as the second
field alongside a truthy first field; only calls whose falsy first
field skips lookup entirely escape the error. -/
theorem history_unknown_name_fails (p : Payload) (c : CandleCluster)
    (hp : CandleCluster.init p = .ok c) (s : String)
    (hs : isCandleAttr s = false) (hne : s ≠ "") :
    (∀ vy : Option String, c.history (some s) vy = .error .unknownAttribute) ∧
    (∀ vx : Option String, pyTruthy vx = true →
      c.history vx (some s) = .error .unknownAttribute) := by
  obtain ⟨hc, hcne⟩ := init_ok_candles hp
  have hemp : s.isEmpty = false := by
    cases he : s.isEmpty with
    | false => rfl
    | true => rw [String.isEmpty_iff] at he; exact absurd he hne
  obtain ⟨c0, rest, hcons⟩ : ∃ c0 rest, c.candles = c0 :: rest := by
    cases hl : c.candles with
    | nil => exact absurd hl hcne
    | cons x xs => exact ⟨x, xs, rfl⟩
  constructor
  · intro vy
    cases hvy : pyTruthy vy with
    | true =>
      simp [CandleCluster.history, pyTruthy_some, hemp, hvy, hcons, histPairs,
        getattrE, getattr_eq_none _ _ hs, except_bind_error]
    | false =>
      simp [CandleCluster.history, pyTruthy_some, hemp, hvy, hcons, histSingle,
        getattrE, getattr_eq_none _ _ hs, except_bind_error]
  · intro vx hvx
    cases vx with
    | none => simp [pyTruthy_none] at hvx
    | some t =>
      rw [pyTruthy_some] at hvx
      simp at hvx
      cases hg : (c0 : Candle).getattr t with
      | none =>
        simp [CandleCluster.history, pyTruthy_some, hemp, hvx, hcons, histPairs,
          getattrE, hg, except_bind_error]
      | some v =>
        simp [CandleCluster.history, pyTruthy_some, hemp, hvx, hcons, histPairs,
          getattrE, hg, getattr_eq_none _ _ hs, except_bind_ok, except_bind_error]

/-- Witness for history_unknown_name_fails: the unrecognized name bogus
as first field on a constructed cluster yields the unknown-attribute
error. -/
theorem history_unknown_name_fails_witness :
    CandleCluster.init payloadA = .ok sampleA ∧
    isCandleAttr "bogus" = false ∧
    sampleA.history (some "bogus") none = .error .unknownAttribute :=
  ⟨rfl, by decide,
    (history_unknown_name_fails payloadA sampleA rfl "bogus" (by decide)
      (by decide)).1 none⟩

/-- C5: for every valid payload, the constructed cluster has exactly as
many candles as the payload's candle array, and, forgetting the derived
flags, its i-th candle is exactly the candle parsed from the i-th
payload record — same order. -/
theorem init_count_and_order (p : Payload) (c : CandleCluster)
    (hp : CandleCluster.init p = .ok c) :
    c.candles.length = p.candles.length ∧
    c.candles.map stripDerived = p.candles.map
      (fun r => mkCandle r (replaceSlash p.instrument) p.granularity) := by
  obtain ⟨hc, -⟩ := init_ok_candles hp
  constructor
  · rw [hc, derive_length, List.length_map]
  · rw [hc, derive_strip, List.map_map]
    exact List.map_congr_left (fun r _ => rfl)

/-- Witness for init_count_and_order at payloadA. -/
theorem init_count_and_order_witness :
    CandleCluster.init payloadA = .ok sampleA ∧
    (sampleA.candles.length = payloadA.candles.length ∧
     sampleA.candles.map stripDerived = payloadA.candles.map
       (fun r => mkCandle r (replaceSlash payloadA.instrument) payloadA.granularity)) :=
  ⟨rfl, init_count_and_order payloadA sampleA rfl⟩

/-- C6: the first candle of every constructed cluster keeps is_bull,
is_bear and reversal unset (none), whatever the payload: the derivation
loop skips index 0 and the candle constructor initializes all three to
None. -/
theorem first_candle_flags_unset (p : Payload) (c : CandleCluster)
    (hp : CandleCluster.init p = .ok c) (c0 : Candle)
    (h : c.candles.head? = some c0) :
    c0.is_bull = none ∧ c0.is_bear = none ∧ c0.reversal = none := by
  obtain ⟨hc, -⟩ := init_ok_candles hp
  rw [hc, derive_head] at h
  cases hraw : p.candles with
  | nil => rw [hraw] at h; simp at h
  | cons r rest =>
    rw [hraw] at h
    simp at h
    rw [← h]
    exact ⟨rfl, rfl, rfl⟩

/-- Witness for first_candle_flags_unset at payloadA. -/
theorem first_candle_flags_unset_witness :
    CandleCluster.init payloadA = .ok sampleA ∧
    sampleA.candles.head? = some (mkCandle (mkRaw 1 1) "USD_CAD" "M1") ∧
    ((mkCandle (mkRaw 1 1) "USD_CAD" "M1").is_bull = none ∧
     (mkCandle (mkRaw 1 1) "USD_CAD" "M1").is_bear = none ∧
     (mkCandle (mkRaw 1 1) "USD_CAD" "M1").reversal = none) :=
  ⟨rfl, rfl, first_candle_flags_unset payloadA sampleA rfl
    (mkCandle (mkRaw 1 1) "USD_CAD" "M1") rfl⟩

/-- C7: the std value of every cluster is the standard deviation of the
close values of the last min(30, N) candles of the sequence — the
candles[-30:] slice of the source equals the last min(30, N) elements. -/
theorem std_last_min_thirty (c : CandleCluster) :
    c.std = standard_deviation
      ((c.candles.rtake (min 30 c.candles.length)).map Candle.close) := by
  have h : c.candles.length - 30 = c.candles.length - min 30 c.candles.length := by
    omega
  rw [CandleCluster.std, List.rtake, h]

/-- C8: traversing a cluster twice, each time through the fresh iterator
of the iteration protocol, yields the full candle sequence both times:
neither traversal leaves state behind that the other could observe. -/
theorem retraversal_yields_full_sequence (c : CandleCluster) :
    (traverseTwice c).1 = c.candles ∧ (traverseTwice c).2 = c.candles := by
  have h : ∀ l : List Candle, exhaustFrom l = l := by
    intro l
    induction l with
    | nil => rfl
    | cons x xs ih => simp [exhaustFrom, ih]
  exact ⟨h c.candles, h c.candles⟩

/-- C9: in every constructed cluster with at least two candles, the
second candle's reversal flag is true regardless of the close values:
its is_bull is a boolean while the first candle's is_bull is unset, so
the equality test of the derivation pass is always false and reversal is
set to true. -/
theorem second_candle_always_reversal (p : Payload) (c : CandleCluster)
    (hp : CandleCluster.init p = .ok c) (h2 : 2 ≤ c.candles.length) :
    c.candles[1].reversal = some true := by
  obtain ⟨pg, pins, praws⟩ := p
  obtain ⟨g, ins, cs, ind⟩ := c
  obtain ⟨hc, -⟩ := init_ok_candles hp
  have hc2 : cs = _ := hc
  subst hc2
  cases praws with
  | nil => simp [derive] at h2
  | cons r0 rtl =>
    cases rtl with
    | nil => simp [derive, derivePass] at h2
    | cons r1 rrest =>
      simp [derive, derivePass, mkCandle]

/-- Witness for second_candle_always_reversal at payloadA. -/
theorem second_candle_always_reversal_witness :
    CandleCluster.init payloadA = .ok sampleA ∧
    2 ≤ sampleA.candles.length ∧
    (sampleA.candles.get ⟨1, by decide⟩).reversal = some true :=
  ⟨rfl, by decide,
    second_candle_always_reversal payloadA sampleA rfl (by decide)⟩

/-- C10: a history call that supplies only the second field — first
field absent, second a recognized attribute name — returns None (no
sequence, no error): the two-field branch needs a truthy first field and
the one-field branch needs a falsy second field, so control falls off
the end of the function. -/
theorem history_y_only_returns_none (c : CandleCluster) (y : String)
    (hy : isCandleAttr y = true) :
    c.history none (some y) = .ok none := by
  have h1 : y.isEmpty = false := isCandleAttr_not_empty y hy
  simp [CandleCluster.history, pyTruthy, h1]

/-- Witness for history_y_only_returns_none with the recognized field
close. -/
theorem history_y_only_returns_none_witness :
    isCandleAttr "close" = true ∧
    sampleA.history none (some "close") = .ok none :=
  ⟨by decide, history_y_only_returns_none sampleA "close" (by decide)⟩

end Oanda
